import Mathlib

/-
Shallow embedding of the AI Coding Tutor core (adaptive progression and
recommendation engine).  Python classes become Lean structures, the mutating
methods become state-passing functions, Python floats used only in exact
comparisons become rationals, and the two uses of `random.choice` are
parametrised by a natural-number index so that theorems can quantify over
every possible random choice.  A Python exception (KeyError, IndexError,
ZeroDivisionError) is modelled as `none` / `Option`.
-/

namespace CodingTutor

/-- Mirrors the Python enum `DifficultyLevel` (ordered beginner < intermediate < advanced). -/
inductive DifficultyLevel where
  | beginner
  | intermediate
  | advanced
deriving DecidableEq, Repr

/-- Mirrors the Python enum `ProgrammingLanguage`. -/
inductive ProgrammingLanguage where
  | python
  | javascript
  | java
  | cpp
deriving DecidableEq, Repr

/-- Mirrors the Python enum `ProblemCategory`. -/
inductive ProblemCategory where
  | algorithms
  | data_structures
  | web_development
  | machine_learning
deriving DecidableEq, Repr

/-- The list `list(ProblemCategory)` in Python enum declaration order. -/
def ProblemCategory.all : List ProblemCategory :=
  [.algorithms, .data_structures, .web_development, .machine_learning]

/-- Numeric rank of a difficulty tier, used to state monotonicity of promotions. -/
def DifficultyLevel.rank : DifficultyLevel → Nat
  | .beginner => 0
  | .intermediate => 1
  | .advanced => 2

/-- One step up the ladder beginner → intermediate → advanced; `none` at the
terminal tier.  This is the specification's single-step successor, used to
formalise "promoted exactly one step". -/
def DifficultyLevel.next_level : DifficultyLevel → Option DifficultyLevel
  | .beginner => some .intermediate
  | .intermediate => some .advanced
  | .advanced => none

/-- A hint entry as appended by `CodingProblem.add_hint`: the Python dict
with keys level and hint. -/
structure Hint where
  level : Int
  hint : String
deriving DecidableEq, Repr

/-- One test case of a problem.  The Python source stores a pair
(inputs tuple, expected output); the core logic never inspects the contents,
only the count, so both components are embedded as their printed form. -/
structure TestCase where
  inputs : String
  expected : String
deriving DecidableEq, Repr

/-- Mirrors the Python class `CodingProblem`.  The never-read field
solution_approach (always the empty string) is kept for fidelity. -/
structure CodingProblem where
  problem_id : String
  title : String
  description : String
  category : ProblemCategory
  language : ProgrammingLanguage
  difficulty : DifficultyLevel
  test_cases : List TestCase
  hints : List Hint
  solution_approach : String
deriving DecidableEq, Repr

/-- Mirrors `CodingProblem.__init__`: stores the given fields unchanged
(including an empty `test_cases` list — the constructor performs no
validation) and starts with no hints. -/
def CodingProblem.make (problem_id title description : String)
    (category : ProblemCategory) (language : ProgrammingLanguage)
    (difficulty : DifficultyLevel) (test_cases : List TestCase) : CodingProblem :=
  { problem_id := problem_id, title := title, description := description,
    category := category, language := language, difficulty := difficulty,
    test_cases := test_cases, hints := [], solution_approach := "" }

/-- Mirrors `CodingProblem.add_hint`: appends one hint dict to the list. -/
def CodingProblem.add_hint (p : CodingProblem) (hint : String) (level : Int) : CodingProblem :=
  { p with hints := p.hints ++ [{ level := level, hint := hint }] }

/-- The list comprehension in `CodingProblem.get_hint`: all hints whose level
is at most the student's current struggle level. -/
def CodingProblem.available_hints (p : CodingProblem) (current_level : Int) : List Hint :=
  p.hints.filter (fun h => decide (h.level ≤ current_level))

/-- Mirrors `CodingProblem.get_hint`: picks a random element of the filtered
hint list (the random choice is modelled by the index `r`) and returns its
text, or `none` when no hint is eligible. -/
def CodingProblem.get_hint (p : CodingProblem) (current_level : Int) (r : Nat) : Option String :=
  let available := p.available_hints current_level
  if h : available = [] then none
  else some ((available.get ⟨r % available.length, Nat.mod_lt r (List.length_pos.mpr h)⟩).hint)

/-- Mirrors the Python class `StudentProgress`.  The Python set of completed
problem ids becomes a `Finset`; `skill_levels` is the dict keyed by every
category.  The field `performance_metrics` is initialised to an empty dict and
never touched anywhere in the source, so it is omitted. -/
structure StudentProgress where
  student_id : String
  completed_problems : Finset String
  current_streak : Nat
  longest_streak : Nat
  skill_levels : ProblemCategory → DifficultyLevel

/-- Mirrors `StudentProgress.__init__`: no completed problems, both streaks
zero, every category at beginner. -/
def StudentProgress.make (student_id : String) : StudentProgress :=
  { student_id := student_id, completed_problems := ∅,
    current_streak := 0, longest_streak := 0,
    skill_levels := fun _ => .beginner }

/-- Mirrors `StudentProgress._promote_skill_level`: beginner goes to
intermediate, intermediate to advanced, advanced is left unchanged. -/
def StudentProgress.promote_skill_level (s : StudentProgress)
    (category : ProblemCategory) : StudentProgress :=
  match s.skill_levels category with
  | .beginner =>
      { s with skill_levels := Function.update s.skill_levels category .intermediate }
  | .intermediate =>
      { s with skill_levels := Function.update s.skill_levels category .advanced }
  | .advanced => s

/-- The first three statements of the success branch of
`StudentProgress.update_progress`: record the problem as completed, extend
the current streak, refresh the longest streak. -/
def StudentProgress.mark_success (s : StudentProgress) (problem : CodingProblem) :
    StudentProgress :=
  { s with completed_problems := insert problem.problem_id s.completed_problems,
           current_streak := s.current_streak + 1,
           longest_streak := max s.longest_streak (s.current_streak + 1) }

/-- Mirrors `StudentProgress.update_progress`.  On success: record the
problem as completed, extend the streak, refresh the longest streak, then
promote when the quality score exceeds 80 and the problem difficulty equals
the category's (pre-attempt) skill level.  On failure: reset the current
streak only. -/
def StudentProgress.update_progress (s : StudentProgress) (problem : CodingProblem)
    (success : Bool) (code_quality_score : ℚ) : StudentProgress :=
  if success then
    let s1 : StudentProgress := s.mark_success problem
    if code_quality_score > 80 ∧ problem.difficulty = s1.skill_levels problem.category then
      s1.promote_skill_level problem.category
    else s1
  else
    { s with current_streak := 0 }

/-- A sequence of attempts (problem, success, quality score) applied in order
through `update_progress`; used to speak about all reachable ledgers. -/
def run_attempts (s : StudentProgress)
    (attempts : List (CodingProblem × Bool × ℚ)) : StudentProgress :=
  attempts.foldl (fun st a => st.update_progress a.1 a.2.1 a.2.2) s

/-- Mirrors the Python class `AICodingTutor` state: the problems dict in
insertion order and the students dict as an association list.  The analyzer
and session history play no part in the verified claims. -/
structure AICodingTutor where
  problems : List CodingProblem
  students : List (String × StudentProgress)

/-- The first sample problem registered by `AICodingTutor._initialize_problems`. -/
def fib_problem : CodingProblem :=
  (((CodingProblem.make "fib_001" "Fibonacci Sequence Generator"
      "Write a function that returns the nth Fibonacci number."
      .algorithms .python .beginner
      [{ inputs := "(0,)", expected := "0" },
       { inputs := "(1,)", expected := "1" },
       { inputs := "(5,)", expected := "5" },
       { inputs := "(10,)", expected := "55" }]).add_hint
        "The Fibonacci sequence starts with 0 and 1" 1).add_hint
        "Each subsequent number is the sum of the previous two" 1).add_hint
        "Consider using recursion or iteration" 1

/-- The second sample problem registered by `AICodingTutor._initialize_problems`. -/
def palindrome_problem : CodingProblem :=
  (((CodingProblem.make "pal_001" "Palindrome Checker"
      "Write a function that checks if a string is a palindrome."
      .algorithms .python .beginner
      [{ inputs := "(racecar,)", expected := "True" },
       { inputs := "(hello,)", expected := "False" },
       { inputs := "(A man a plan a canal Panama,)", expected := "True" },
       { inputs := "(,)", expected := "True" }]).add_hint
        "A palindrome reads the same forwards and backwards" 1).add_hint
        "Consider removing spaces and converting to lowercase" 1).add_hint
        "You can reverse the string and compare" 1

/-- Mirrors `AICodingTutor._initialize_problems`: the fixed two-problem
catalog, in registration order.  Note that it performs no validation of any
kind (in particular no test-case count check). -/
def init_problems : List CodingProblem :=
  [fib_problem, palindrome_problem]

/-- Mirrors `AICodingTutor.__init__`. -/
def AICodingTutor.make : AICodingTutor :=
  { problems := init_problems, students := [] }

/-- Dict lookup `self.students[student_id]`; `none` models a KeyError. -/
def AICodingTutor.find_student (t : AICodingTutor) (student_id : String) :
    Option StudentProgress :=
  (t.students.find? (fun e => decide (e.1 = student_id))).map Prod.snd

/-- Mirrors `AICodingTutor.register_student`: create a fresh ledger only when
the student is unknown (idempotent). -/
def AICodingTutor.register_student (t : AICodingTutor) (student_id : String) :
    AICodingTutor :=
  match t.find_student student_id with
  | none => { t with students := t.students ++ [(student_id, StudentProgress.make student_id)] }
  | some _ => t

/-- The first list comprehension of `get_recommended_problem`: category and
difficulty both match and the problem is not completed. -/
def suitable_exact (t : AICodingTutor) (student : StudentProgress)
    (category : ProblemCategory) : List CodingProblem :=
  t.problems.filter (fun p =>
    decide (p.category = category ∧ p.difficulty = student.skill_levels category ∧
      p.problem_id ∉ student.completed_problems))

/-- The fallback list comprehension of `get_recommended_problem`: only the
difficulty matches and the problem is not completed. -/
def suitable_relaxed (t : AICodingTutor) (student : StudentProgress)
    (category : ProblemCategory) : List CodingProblem :=
  t.problems.filter (fun p =>
    decide (p.difficulty = student.skill_levels category ∧
      p.problem_id ∉ student.completed_problems))

/-- The body of `get_recommended_problem` after the student and category are
resolved: try the exact pool, then the relaxed pool, then fall back to the
first-registered problem.  The random choice is modelled by the index `r`;
`none` models the IndexError on an empty catalog. -/
def recommend_from (t : AICodingTutor) (student : StudentProgress)
    (category : ProblemCategory) (r : Nat) : Option CodingProblem :=
  let pool := suitable_exact t student category
  let pool2 := if pool = [] then suitable_relaxed t student category else pool
  if h : pool2 = [] then t.problems.head?
  else some (pool2.get ⟨r % pool2.length, Nat.mod_lt r (List.length_pos.mpr h)⟩)

/-- Mirrors `AICodingTutor.get_recommended_problem`.  A missing category is
replaced by a random one (modelled by `random_category`); an unknown student
(Python KeyError) yields `none`. -/
def AICodingTutor.get_recommended_problem (t : AICodingTutor) (student_id : String)
    (category : Option ProblemCategory) (random_category : ProblemCategory)
    (r : Nat) : Option CodingProblem :=
  match t.find_student student_id with
  | none => none
  | some student => recommend_from t student (category.getD random_category) r

/-- Mirrors `AICodingTutor._run_tests`: one result per test case, with the
simulated pass/fail outcome supplied externally (the source draws it from
`random.random()`). -/
def run_tests (test_cases : List TestCase) (outcome : Nat → Bool) : List Bool :=
  (List.range test_cases.length).map outcome

/-- The success-rate computation in `AICodingTutor.submit_solution`:
passed count divided by the number of test results; `none` models the
ZeroDivisionError raised when the problem has no test cases. -/
def compute_success_rate (test_results : List Bool) : Option ℚ :=
  if test_results.length = 0 then none
  else some ((test_results.count true : ℚ) / (test_results.length : ℚ))

/-
Helper lemmas about the embedded operations, shared by the claim theorems.
-/

lemma update_progress_false (s : StudentProgress) (p : CodingProblem) (q : ℚ) :
    s.update_progress p false q = { s with current_streak := 0 } := rfl

lemma update_progress_true (s : StudentProgress) (p : CodingProblem) (q : ℚ) :
    s.update_progress p true q =
      if q > 80 ∧ p.difficulty = s.skill_levels p.category then
        (s.mark_success p).promote_skill_level p.category
      else s.mark_success p := rfl

lemma mark_success_skill (s : StudentProgress) (p : CodingProblem) :
    (s.mark_success p).skill_levels = s.skill_levels := rfl

lemma mark_success_current (s : StudentProgress) (p : CodingProblem) :
    (s.mark_success p).current_streak = s.current_streak + 1 := rfl

lemma mark_success_longest (s : StudentProgress) (p : CodingProblem) :
    (s.mark_success p).longest_streak = max s.longest_streak (s.current_streak + 1) := rfl

lemma mark_success_completed (s : StudentProgress) (p : CodingProblem) :
    (s.mark_success p).completed_problems = insert p.problem_id s.completed_problems := rfl

lemma promote_current (s : StudentProgress) (c : ProblemCategory) :
    (s.promote_skill_level c).current_streak = s.current_streak := by
  cases h : s.skill_levels c <;> simp [StudentProgress.promote_skill_level, h]

lemma promote_longest (s : StudentProgress) (c : ProblemCategory) :
    (s.promote_skill_level c).longest_streak = s.longest_streak := by
  cases h : s.skill_levels c <;> simp [StudentProgress.promote_skill_level, h]

lemma promote_completed (s : StudentProgress) (c : ProblemCategory) :
    (s.promote_skill_level c).completed_problems = s.completed_problems := by
  cases h : s.skill_levels c <;> simp [StudentProgress.promote_skill_level, h]

lemma promote_skill_at (s : StudentProgress) (c : ProblemCategory) :
    (s.promote_skill_level c).skill_levels c =
      ((s.skill_levels c).next_level).getD (s.skill_levels c) := by
  cases h : s.skill_levels c <;>
    simp [StudentProgress.promote_skill_level, h, DifficultyLevel.next_level]

lemma promote_skill_other (s : StudentProgress) (c c' : ProblemCategory) (hne : c' ≠ c) :
    (s.promote_skill_level c).skill_levels c' = s.skill_levels c' := by
  cases h : s.skill_levels c <;>
    simp [StudentProgress.promote_skill_level, h, Function.update_noteq hne]

lemma promote_congr (s s' : StudentProgress) (c : ProblemCategory)
    (h : s.skill_levels = s'.skill_levels) :
    (s.promote_skill_level c).skill_levels = (s'.promote_skill_level c).skill_levels := by
  funext c'
  by_cases hc : c' = c
  · subst hc
    rw [promote_skill_at, promote_skill_at, h]
  · rw [promote_skill_other _ _ _ hc, promote_skill_other _ _ _ hc, h]

lemma next_level_ne_self (d : DifficultyLevel) : d.next_level ≠ some d := by
  cases d <;> simp [DifficultyLevel.next_level]

/-- Full characterisation of the skill-level field after one call to
`update_progress`: exactly the attempted problem's category is bumped one
step (with `advanced` left fixed by `getD`) when the attempt succeeded, the
quality score exceeds 80, and the difficulty matches; everything else keeps
its previous value. -/
lemma update_skill_char (s : StudentProgress) (p : CodingProblem) (success : Bool)
    (q : ℚ) (c : ProblemCategory) :
    (s.update_progress p success q).skill_levels c =
      if success = true ∧ q > 80 ∧ p.difficulty = s.skill_levels p.category ∧ c = p.category
      then ((s.skill_levels c).next_level).getD (s.skill_levels c)
      else s.skill_levels c := by
  cases success with
  | false =>
      rw [update_progress_false]
      simp
  | true =>
      rw [update_progress_true]
      by_cases hc : q > 80 ∧ p.difficulty = s.skill_levels p.category
      · rw [if_pos hc]
        by_cases hcat : c = p.category
        · subst hcat
          rw [promote_skill_at, mark_success_skill]
          simp [hc]
        · rw [promote_skill_other _ _ _ hcat, mark_success_skill]
          simp [hcat]
      · rw [if_neg hc]
        rw [mark_success_skill]
        simp only [true_and]
        rw [if_neg (fun hfull => hc ⟨hfull.1, hfull.2.1⟩)]

lemma update_streak_invariant (s : StudentProgress) (p : CodingProblem) (b : Bool) (q : ℚ) :
    (s.update_progress p b q).current_streak ≤ (s.update_progress p b q).longest_streak := by
  cases b with
  | false =>
      rw [update_progress_false]
      exact Nat.zero_le _
  | true =>
      rw [update_progress_true]
      split
      · rw [promote_current, promote_longest, mark_success_current, mark_success_longest]
        exact le_max_right _ _
      · rw [mark_success_current, mark_success_longest]
        exact le_max_right _ _

lemma update_longest_mono (s : StudentProgress) (p : CodingProblem) (b : Bool) (q : ℚ) :
    s.longest_streak ≤ (s.update_progress p b q).longest_streak := by
  cases b with
  | false =>
      rw [update_progress_false]
  | true =>
      rw [update_progress_true]
      split
      · rw [promote_longest, mark_success_longest]
        exact le_max_left _ _
      · rw [mark_success_longest]
        exact le_max_left _ _

lemma run_attempts_nil (s : StudentProgress) : run_attempts s [] = s := rfl

lemma run_attempts_cons (s : StudentProgress) (a : CodingProblem × Bool × ℚ)
    (l : List (CodingProblem × Bool × ℚ)) :
    run_attempts s (a :: l) = run_attempts (s.update_progress a.1 a.2.1 a.2.2) l := rfl

lemma run_streak_invariant (l : List (CodingProblem × Bool × ℚ)) (s : StudentProgress)
    (h : s.current_streak ≤ s.longest_streak) :
    (run_attempts s l).current_streak ≤ (run_attempts s l).longest_streak := by
  induction l generalizing s with
  | nil => exact h
  | cons a l ih =>
      rw [run_attempts_cons]
      exact ih _ (update_streak_invariant s a.1 a.2.1 a.2.2)

lemma update_skill_rank_step (s : StudentProgress) (p : CodingProblem) (b : Bool) (q : ℚ)
    (c : ProblemCategory) :
    (s.skill_levels c).rank ≤ ((s.update_progress p b q).skill_levels c).rank ∧
      ((s.update_progress p b q).skill_levels c).rank ≤ (s.skill_levels c).rank + 1 := by
  rw [update_skill_char]
  split
  · cases hl : s.skill_levels c <;>
      simp [DifficultyLevel.next_level, DifficultyLevel.rank]
  · exact ⟨le_refl _, Nat.le_succ _⟩

lemma run_skill_mono (l : List (CodingProblem × Bool × ℚ)) (s : StudentProgress)
    (c : ProblemCategory) :
    (s.skill_levels c).rank ≤ ((run_attempts s l).skill_levels c).rank := by
  induction l generalizing s with
  | nil => exact le_refl _
  | cons a l ih =>
      rw [run_attempts_cons]
      exact le_trans (update_skill_rank_step s a.1 a.2.1 a.2.2 c).1 (ih _)

lemma mem_suitable_exact (t : AICodingTutor) (st : StudentProgress)
    (c : ProblemCategory) (p : CodingProblem) :
    p ∈ suitable_exact t st c ↔
      p ∈ t.problems ∧ p.category = c ∧ p.difficulty = st.skill_levels c ∧
        p.problem_id ∉ st.completed_problems := by
  simp [suitable_exact, List.mem_filter, and_assoc]

lemma mem_suitable_relaxed (t : AICodingTutor) (st : StudentProgress)
    (c : ProblemCategory) (p : CodingProblem) :
    p ∈ suitable_relaxed t st c ↔
      p ∈ t.problems ∧ p.difficulty = st.skill_levels c ∧
        p.problem_id ∉ st.completed_problems := by
  simp [suitable_relaxed, List.mem_filter, and_assoc]

/-
Concrete states used by counterexamples and witnesses.
-/

/-- A ledger whose every category sits at the terminal advanced tier. -/
def adv_student : StudentProgress :=
  { StudentProgress.make "adv_student" with skill_levels := fun _ => .advanced }

/-- An advanced-difficulty problem used to probe promotion at the terminal tier. -/
def adv_problem : CodingProblem :=
  CodingProblem.make "adv_001" "Terminal Tier Problem"
    "A problem at the advanced tier." .algorithms .python .advanced
    [{ inputs := "(1,)", expected := "1" }]

/-- C1 counterexample: the claimed promotion iff fails on the code.  Take a
ledger at the advanced tier for algorithms and a successful attempt on an
advanced algorithms problem with quality score 90: success is true, the score
exceeds 80 and the difficulty equals the pre-attempt skill level, yet no
one-step promotion happens, because `_promote_skill_level` is a no-op at
`advanced`. -/
theorem C1_counterexample :
    ¬ ∀ (s : StudentProgress) (p : CodingProblem) (success : Bool) (q : ℚ),
        (DifficultyLevel.next_level (s.skill_levels p.category) =
            some ((s.update_progress p success q).skill_levels p.category) ↔
          (success = true ∧ q > 80 ∧ p.difficulty = s.skill_levels p.category)) ∧
        (∀ c : ProblemCategory, c ≠ p.category →
          (s.update_progress p success q).skill_levels c = s.skill_levels c) := by
  intro hall
  have h := ((hall adv_student adv_problem true 90).1).mpr ⟨rfl, by norm_num, rfl⟩
  rw [show adv_student.skill_levels adv_problem.category = DifficultyLevel.advanced from rfl] at h
  simp [DifficultyLevel.next_level] at h

/-- C1 (amended): the skill level of the attempted problem's category is
promoted exactly one step if and only if success is true, the quality score
exceeds 80, the problem's difficulty equals the pre-attempt skill level for
that category, and that level is not already advanced (promotion at the
terminal tier is a no-op); in every other case — including a qualifying
attempt at the advanced ceiling — no skill level changes, in the attempted
category or any other. -/
theorem C1_promotion_iff (s : StudentProgress) (p : CodingProblem) (success : Bool) (q : ℚ) :
    (DifficultyLevel.next_level (s.skill_levels p.category) =
        some ((s.update_progress p success q).skill_levels p.category) ↔
      (success = true ∧ q > 80 ∧ p.difficulty = s.skill_levels p.category ∧
        s.skill_levels p.category ≠ .advanced)) ∧
    (∀ c : ProblemCategory, c ≠ p.category →
      (s.update_progress p success q).skill_levels c = s.skill_levels c) ∧
    (¬(success = true ∧ q > 80 ∧ p.difficulty = s.skill_levels p.category ∧
        s.skill_levels p.category ≠ .advanced) →
      ∀ c : ProblemCategory, (s.update_progress p success q).skill_levels c = s.skill_levels c) := by
  refine ⟨?_, ?_, ?_⟩
  · rw [update_skill_char]
    by_cases hcond : success = true ∧ q > 80 ∧ p.difficulty = s.skill_levels p.category
    · obtain ⟨h1, h2, h3⟩ := hcond
      rw [if_pos ⟨h1, h2, h3, rfl⟩]
      cases hl : s.skill_levels p.category <;>
        simp [DifficultyLevel.next_level, h1, h2, h3, hl]
    · rw [if_neg (fun hfull => hcond ⟨hfull.1, hfull.2.1, hfull.2.2.1⟩)]
      constructor
      · intro h
        exact absurd h (next_level_ne_self _)
      · rintro ⟨h1, h2, h3, -⟩
        exact absurd ⟨h1, h2, h3⟩ hcond
  · intro c hc
    rw [update_skill_char, if_neg (fun hfull => hc hfull.2.2.2)]
  · intro hneg c
    rw [update_skill_char]
    split
    · rename_i hcond
      obtain ⟨h1, h2, h3, h4⟩ := hcond
      subst h4
      by_cases hadv : s.skill_levels p.category = .advanced
      · rw [hadv]
        rfl
      · exact absurd ⟨h1, h2, h3, hadv⟩ hneg
    · rfl

/-- C1 witness: a fresh student succeeding on the beginner algorithms problem
with quality score 90 is promoted exactly one step for algorithms. -/
theorem C1_witness :
    DifficultyLevel.next_level ((StudentProgress.make "w1").skill_levels fib_problem.category) =
      some (((StudentProgress.make "w1").update_progress fib_problem true 90).skill_levels
        fib_problem.category) :=
  ((C1_promotion_iff (StudentProgress.make "w1") fib_problem true 90).1).mpr
    ⟨rfl, by norm_num, rfl, by decide⟩

/-- C2: for every ledger reachable from registration by any sequence of
progress updates, the longest streak dominates the current streak, the
current streak is non-negative, and the longest streak can only grow under a
further progress update. -/
theorem C2_streak_invariant (student_id : String)
    (attempts : List (CodingProblem × Bool × ℚ)) :
    (run_attempts (StudentProgress.make student_id) attempts).current_streak ≤
      (run_attempts (StudentProgress.make student_id) attempts).longest_streak ∧
    0 ≤ (run_attempts (StudentProgress.make student_id) attempts).current_streak ∧
    ∀ (p : CodingProblem) (b : Bool) (q : ℚ),
      (run_attempts (StudentProgress.make student_id) attempts).longest_streak ≤
        ((run_attempts (StudentProgress.make student_id) attempts).update_progress p b q).longest_streak :=
  ⟨run_streak_invariant attempts _ (le_refl 0), Nat.zero_le _,
   fun p b q => update_longest_mono _ p b q⟩

/-- C3: a category's skill level never decreases over any sequence of
attempts, a single attempt moves it up by at most one rank, promotion moves
exactly one step up the successor order, and promotion at advanced is a
no-op on the whole ledger. -/
theorem C3_skill_monotone (s : StudentProgress)
    (attempts : List (CodingProblem × Bool × ℚ)) (c : ProblemCategory) :
    ((s.skill_levels c).rank ≤ ((run_attempts s attempts).skill_levels c).rank) ∧
    (∀ (p : CodingProblem) (b : Bool) (q : ℚ),
      ((s.update_progress p b q).skill_levels c).rank ≤ (s.skill_levels c).rank + 1) ∧
    (∀ c' : ProblemCategory,
      (s.promote_skill_level c').skill_levels c' =
        ((s.skill_levels c').next_level).getD (s.skill_levels c')) ∧
    (s.skill_levels c = .advanced → s.promote_skill_level c = s) := by
  refine ⟨run_skill_mono attempts s c, fun p b q => (update_skill_rank_step s p b q c).2,
    fun c' => promote_skill_at s c', ?_⟩
  intro h
  simp [StudentProgress.promote_skill_level, h]

/-- C3 witness: one successful high-quality beginner attempt does not lower
the algorithms skill level of a fresh student. -/
theorem C3_witness :
    ((StudentProgress.make "w3").skill_levels ProblemCategory.algorithms).rank ≤
      ((run_attempts (StudentProgress.make "w3") [(fib_problem, true, 90)]).skill_levels
        ProblemCategory.algorithms).rank :=
  (C3_skill_monotone (StudentProgress.make "w3") [(fib_problem, true, 90)] .algorithms).1

/-- The tutor as built by the demonstration: fresh catalog, one registered
student. -/
def demo_tutor : AICodingTutor :=
  AICodingTutor.make.register_student "student_123"

/-- A student ledger that has completed the whole catalog and whose
algorithms skill level has moved past every catalogued difficulty. -/
def sated_student : StudentProgress :=
  { StudentProgress.make "sated" with
      completed_problems := {"fib_001", "pal_001"},
      skill_levels := Function.update (fun _ => DifficultyLevel.beginner)
        .algorithms .intermediate }

/-- A student ledger that has already completed the Fibonacci problem. -/
def repeat_student : StudentProgress :=
  { StudentProgress.make "repeat" with completed_problems := {"fib_001"} }

/-- A problem constructed with an empty test-case list; the constructor
accepts it without any validation. -/
def zero_test_problem : CodingProblem :=
  CodingProblem.make "empty_001" "Empty Problem"
    "A problem registered with no test cases." .algorithms .python .beginner []

/-- C4: a failed attempt resets the current streak to zero and changes
nothing else: every skill level, the longest streak and the completed set
keep their previous values, and the whole ledger equals the input with only
current_streak zeroed. -/
theorem C4_failure_frame (s : StudentProgress) (p : CodingProblem) (q : ℚ) :
    (s.update_progress p false q).current_streak = 0 ∧
    (∀ c : ProblemCategory, (s.update_progress p false q).skill_levels c = s.skill_levels c) ∧
    (s.update_progress p false q).longest_streak = s.longest_streak ∧
    (s.update_progress p false q).completed_problems = s.completed_problems ∧
    s.update_progress p false q = { s with current_streak := 0 } :=
  ⟨rfl, fun _ => rfl, rfl, rfl, rfl⟩

/-- C5: with a non-empty catalog, the recommendation operation always
answers with some problem for a registered student: it serves a member of
the exact (category, target-difficulty) pool when that pool is non-empty,
otherwise a member of the difficulty-only pool, otherwise the
first-registered problem of the catalog. -/
theorem C5_total (t : AICodingTutor) (student_id : String) (st : StudentProgress)
    (category : Option ProblemCategory) (rc : ProblemCategory) (r : Nat)
    (hcat : t.problems ≠ [])
    (hst : t.find_student student_id = some st) :
    ∃ p : CodingProblem,
      t.get_recommended_problem student_id category rc r = some p ∧
      (suitable_exact t st (category.getD rc) ≠ [] →
        p ∈ suitable_exact t st (category.getD rc)) ∧
      (suitable_exact t st (category.getD rc) = [] →
        suitable_relaxed t st (category.getD rc) ≠ [] →
        p ∈ suitable_relaxed t st (category.getD rc)) ∧
      (suitable_exact t st (category.getD rc) = [] →
        suitable_relaxed t st (category.getD rc) = [] →
        t.problems.head? = some p) := by
  unfold AICodingTutor.get_recommended_problem
  rw [hst]
  by_cases h1 : suitable_exact t st (category.getD rc) = []
  · by_cases h2 : suitable_relaxed t st (category.getD rc) = []
    · cases hp : t.problems with
      | nil => exact absurd hp hcat
      | cons a l =>
          refine ⟨a, ?_, fun hx => absurd h1 hx, fun _ hx => absurd h2 hx,
            fun _ _ => rfl⟩
          simp [recommend_from, h1, h2, hp]
    · have hlen : 0 < (suitable_relaxed t st (category.getD rc)).length :=
        List.length_pos.mpr h2
      refine ⟨(suitable_relaxed t st (category.getD rc)).get
          ⟨r % _, Nat.mod_lt r hlen⟩, ?_, fun hx => absurd h1 hx,
        fun _ _ => List.get_mem _ _ _, fun _ hx => absurd hx h2⟩
      simp [recommend_from, h1, h2]
  · have hlen : 0 < (suitable_exact t st (category.getD rc)).length :=
      List.length_pos.mpr h1
    refine ⟨(suitable_exact t st (category.getD rc)).get
        ⟨r % _, Nat.mod_lt r hlen⟩, ?_, fun _ => List.get_mem _ _ _,
      fun hx => absurd hx h1, fun hx => absurd hx h1⟩
    simp [recommend_from, h1]

/-- C5 witness: the demonstration tutor recommends some problem to its
registered student. -/
theorem C5_witness :
    demo_tutor.problems ≠ [] ∧
    demo_tutor.find_student "student_123" = some (StudentProgress.make "student_123") ∧
    ∃ p : CodingProblem,
      demo_tutor.get_recommended_problem "student_123" none ProblemCategory.algorithms 0 =
        some p := by
  have h1 : demo_tutor.problems ≠ [] := by decide
  have h2 : demo_tutor.find_student "student_123" =
      some (StudentProgress.make "student_123") := rfl
  obtain ⟨p, hp, -, -, -⟩ := C5_total demo_tutor "student_123"
    (StudentProgress.make "student_123") none ProblemCategory.algorithms 0 h1 h2
  exact ⟨h1, h2, p, hp⟩

/-- C6: whenever some catalog problem at the student's target difficulty is
not yet completed, the recommended problem is itself not completed, for
every random choice. -/
theorem C6_not_completed (t : AICodingTutor) (student_id : String) (st : StudentProgress)
    (category : Option ProblemCategory) (rc : ProblemCategory) (r : Nat)
    (hst : t.find_student student_id = some st)
    (h : ∃ p ∈ t.problems, p.difficulty = st.skill_levels (category.getD rc) ∧
      p.problem_id ∉ st.completed_problems) :
    ∃ q : CodingProblem,
      t.get_recommended_problem student_id category rc r = some q ∧
      q.problem_id ∉ st.completed_problems := by
  unfold AICodingTutor.get_recommended_problem
  rw [hst]
  obtain ⟨p0, hp0, hd0, hc0⟩ := h
  by_cases h1 : suitable_exact t st (category.getD rc) = []
  · have h2 : suitable_relaxed t st (category.getD rc) ≠ [] :=
      List.ne_nil_of_mem ((mem_suitable_relaxed t st _ p0).mpr ⟨hp0, hd0, hc0⟩)
    have hlen : 0 < (suitable_relaxed t st (category.getD rc)).length :=
      List.length_pos.mpr h2
    refine ⟨(suitable_relaxed t st (category.getD rc)).get
        ⟨r % _, Nat.mod_lt r hlen⟩, ?_, ?_⟩
    · simp [recommend_from, h1, h2]
    · have hmem := List.get_mem (suitable_relaxed t st (category.getD rc)) _
        (Nat.mod_lt r hlen)
      exact ((mem_suitable_relaxed t st _ _).mp hmem).2.2
  · have hlen : 0 < (suitable_exact t st (category.getD rc)).length :=
      List.length_pos.mpr h1
    refine ⟨(suitable_exact t st (category.getD rc)).get
        ⟨r % _, Nat.mod_lt r hlen⟩, ?_, ?_⟩
    · simp [recommend_from, h1]
    · have hmem := List.get_mem (suitable_exact t st (category.getD rc)) _
        (Nat.mod_lt r hlen)
      exact ((mem_suitable_exact t st _ _).mp hmem).2.2.2

/-- C6 witness: the fresh registered student gets a recommendation outside
the (empty) completed set. -/
theorem C6_witness :
    (∃ p ∈ demo_tutor.problems,
      p.difficulty = (StudentProgress.make "student_123").skill_levels
        ((none : Option ProblemCategory).getD ProblemCategory.algorithms) ∧
      p.problem_id ∉ (StudentProgress.make "student_123").completed_problems) ∧
    ∃ q : CodingProblem,
      demo_tutor.get_recommended_problem "student_123" none ProblemCategory.algorithms 0 =
        some q ∧
      q.problem_id ∉ (StudentProgress.make "student_123").completed_problems := by
  have h2 : demo_tutor.find_student "student_123" =
      some (StudentProgress.make "student_123") := rfl
  have hex : ∃ p ∈ demo_tutor.problems,
      p.difficulty = (StudentProgress.make "student_123").skill_levels
        ((none : Option ProblemCategory).getD ProblemCategory.algorithms) ∧
      p.problem_id ∉ (StudentProgress.make "student_123").completed_problems :=
    ⟨fib_problem, by decide, rfl, by decide⟩
  exact ⟨hex, C6_not_completed demo_tutor "student_123"
    (StudentProgress.make "student_123") none ProblemCategory.algorithms 0 h2 hex⟩

/-- C7: the hint selector never serves a hint above the requested struggle
level, and it returns none exactly when the problem has no hint at or below
that level, for every random choice. -/
theorem C7_hint_level (p : CodingProblem) (struggle : Int) (r : Nat)
    (_hs : 1 ≤ struggle) :
    (∀ s : String, p.get_hint struggle r = some s →
      ∃ h ∈ p.hints, h.level ≤ struggle ∧ h.hint = s) ∧
    (p.get_hint struggle r = none ↔ ∀ h ∈ p.hints, ¬h.level ≤ struggle) := by
  constructor
  · intro s hsome
    simp only [CodingProblem.get_hint] at hsome
    split at hsome
    · simp at hsome
    · rename_i hne
      have hmem : (p.available_hints struggle).get
          ⟨r % (p.available_hints struggle).length,
            Nat.mod_lt r (List.length_pos.mpr hne)⟩ ∈ p.available_hints struggle :=
        List.get_mem _ _ _
      have hfil := List.mem_filter.mp hmem
      refine ⟨_, hfil.1, of_decide_eq_true hfil.2, ?_⟩
      simpa using hsome
  · simp only [CodingProblem.get_hint]
    split
    · rename_i hnil
      have hall := List.filter_eq_nil_iff.mp hnil
      refine iff_of_true rfl ?_
      intro h hh hle
      exact hall h hh (decide_eq_true hle)
    · rename_i hne
      refine iff_of_false (by simp) ?_
      intro hall
      obtain ⟨a, ha⟩ := List.exists_mem_of_ne_nil _ hne
      have hfil := List.mem_filter.mp ha
      exact hall a hfil.1 (of_decide_eq_true hfil.2)

/-- C7 witness: at struggle level 1 on the Fibonacci problem the selector
returns none exactly when no hint sits at or below level 1 (here hints
exist, so it does not return none). -/
theorem C7_witness :
    (1 : Int) ≤ 1 ∧
      (fib_problem.get_hint 1 0 = none ↔
        ∀ h ∈ fib_problem.hints, ¬h.level ≤ (1 : Int)) :=
  ⟨le_refl 1, (C7_hint_level fib_problem 1 0 (le_refl 1)).2⟩

/-- C8 evaluated at the failing input: the embedded constructor accepts a
problem with an empty test-case list (no ConfigurationError exists anywhere
in the code), the hard-coded catalog happens to contain only problems with
test cases, and submitting the unvalidated zero-test-case problem hits the
division by zero (modelled as none) at submission time instead of a
load-time rejection. -/
theorem C8_zero_test_eval :
    zero_test_problem.test_cases = [] ∧
    (∀ p ∈ init_problems, p.test_cases ≠ []) ∧
    compute_success_rate (run_tests zero_test_problem.test_cases (fun _ => true)) = none := by
  refine ⟨rfl, ?_, rfl⟩
  decide

/-- C9: when both candidate pools are empty the recommendation operation
returns the catalog's first-registered problem, with no completed-problems
exclusion applied. -/
theorem C9_fallback_unfiltered (t : AICodingTutor) (st : StudentProgress)
    (c : ProblemCategory) (r : Nat)
    (h1 : suitable_exact t st c = []) (h2 : suitable_relaxed t st c = []) :
    recommend_from t st c r = t.problems.head? := by
  simp [recommend_from, h1, h2]

/-- C9 witness: a student who completed the whole catalog and whose target
difficulty is intermediate receives the first-registered problem, which they
have already completed and whose difficulty differs from the target. -/
theorem C9_witness :
    suitable_exact AICodingTutor.make sated_student ProblemCategory.algorithms = [] ∧
    suitable_relaxed AICodingTutor.make sated_student ProblemCategory.algorithms = [] ∧
    recommend_from AICodingTutor.make sated_student ProblemCategory.algorithms 0 =
      some fib_problem ∧
    fib_problem.problem_id ∈ sated_student.completed_problems ∧
    fib_problem.difficulty ≠ sated_student.skill_levels ProblemCategory.algorithms := by
  have h1 : suitable_exact AICodingTutor.make sated_student ProblemCategory.algorithms = [] := by
    decide
  have h2 : suitable_relaxed AICodingTutor.make sated_student ProblemCategory.algorithms = [] := by
    decide
  refine ⟨h1, h2, ?_, by decide, by decide⟩
  rw [C9_fallback_unfiltered AICodingTutor.make sated_student ProblemCategory.algorithms 0 h1 h2]
  rfl

/-- C10: a successful attempt on an already-completed problem leaves the
completed set unchanged (set insertion is idempotent) but still increments
the current streak, still refreshes the longest streak, and still applies
the promotion rule under the usual condition. -/
theorem C10_repeat_attempt (s : StudentProgress) (p : CodingProblem) (q : ℚ)
    (hmem : p.problem_id ∈ s.completed_problems) :
    (s.update_progress p true q).completed_problems = s.completed_problems ∧
    (s.update_progress p true q).current_streak = s.current_streak + 1 ∧
    (s.update_progress p true q).longest_streak =
      max s.longest_streak (s.current_streak + 1) ∧
    ((q > 80 ∧ p.difficulty = s.skill_levels p.category) →
      (s.update_progress p true q).skill_levels =
        (s.promote_skill_level p.category).skill_levels) ∧
    (¬(q > 80 ∧ p.difficulty = s.skill_levels p.category) →
      (s.update_progress p true q).skill_levels = s.skill_levels) := by
  have hins : insert p.problem_id s.completed_problems = s.completed_problems :=
    Finset.insert_eq_self.mpr hmem
  refine ⟨?_, ?_, ?_, ?_, ?_⟩
  · rw [update_progress_true]
    split
    · rw [promote_completed, mark_success_completed, hins]
    · rw [mark_success_completed, hins]
  · rw [update_progress_true]
    split
    · rw [promote_current, mark_success_current]
    · rw [mark_success_current]
  · rw [update_progress_true]
    split
    · rw [promote_longest, mark_success_longest]
    · rw [mark_success_longest]
  · intro hc
    rw [update_progress_true, if_pos hc]
    exact promote_congr _ _ _ rfl
  · intro hc
    rw [update_progress_true, if_neg hc]
    rfl

/-- C10 witness: re-succeeding on the already-completed Fibonacci problem
keeps the completed set unchanged yet still extends the streak. -/
theorem C10_witness :
    fib_problem.problem_id ∈ repeat_student.completed_problems ∧
    (repeat_student.update_progress fib_problem true 90).completed_problems =
      repeat_student.completed_problems ∧
    (repeat_student.update_progress fib_problem true 90).current_streak =
      repeat_student.current_streak + 1 := by
  have hmem : fib_problem.problem_id ∈ repeat_student.completed_problems := by decide
  have h := C10_repeat_attempt repeat_student fib_problem 90 hmem
  exact ⟨hmem, h.1, h.2.1⟩

end CodingTutor
